import Mathlib

/-!
Verification of `calcular_frecuencias.py` (bearing fault-frequency calculator).

The Python function `calcular_frecuencias_falla` is embedded shallowly:
Python floats are modelled as real numbers, `math.radians` / `math.cos` as
`Real.pi`-based conversion and `Real.cos`, Python's `round(x, 2)` as decimal
rounding to two places with ties to even, and Python's `/` (which raises
`ZeroDivisionError` on a zero divisor) as an `Option`-valued division where a
zero divisor yields `none`.  The returned Python dict is modelled as a tree of
string-keyed objects (`JVal`).
-/

namespace Rodamientos

/-- Model of the Python values stored in the returned dict: numbers, strings,
and nested string-keyed dicts (insertion-ordered association lists). -/
inductive JVal where
  | num (x : ℝ) : JVal
  | str (s : String) : JVal
  | obj (fields : List (String × JVal)) : JVal

/-- Dict lookup: `v[k]` when `v` is an object, `none` otherwise. -/
def JVal.get : JVal → String → Option JVal
  | JVal.obj fs, k => fs.lookup k
  | _, _ => none

/-- The keys of a dict value, in insertion order. -/
def JVal.keys : JVal → List String
  | JVal.obj fs => fs.map Prod.fst
  | _ => []

/-- Follow a path of keys through nested dicts. -/
def getPath (v : Option JVal) (ks : List String) : Option JVal :=
  ks.foldl (fun acc k => acc.bind (fun r => JVal.get r k)) v

/-- The six arguments of `calcular_frecuencias_falla`, with the source's
parameter names.  `numero_elementos` is the rolling-element count (a Python
int in the example calls); the other five are Python floats, modelled as ℝ. -/
structure Entrada where
  d_interno : ℝ
  D_externo : ℝ
  numero_elementos : ℕ
  diametro_elemento : ℝ
  angulo_contacto : ℝ
  rpm : ℝ

/-- Line 27: `Pd = (d_interno + D_externo) / 2`. -/
noncomputable def Pd (e : Entrada) : ℝ := (e.d_interno + e.D_externo) / 2

/-- Line 30: `beta_rad = math.radians(angulo_contacto)`, i.e. degrees·π/180. -/
noncomputable def beta_rad (e : Entrada) : ℝ := e.angulo_contacto * (Real.pi / 180)

/-- Line 33: `bd_pd = diametro_elemento / Pd` (value when it does not raise). -/
noncomputable def bd_pd (e : Entrada) : ℝ := e.diametro_elemento / Pd e

/-- Line 36: `cos_beta = math.cos(beta_rad)`. -/
noncomputable def cos_beta (e : Entrada) : ℝ := Real.cos (beta_rad e)

/-- Line 39: `f_rot = rpm / 60`. -/
noncomputable def f_rot (e : Entrada) : ℝ := e.rpm / 60

/-- Line 43: `BPFO = (numero_elementos / 2) * (1 - bd_pd * cos_beta) * f_rot`;
`numero_elementos / 2` is Python true division, hence real division here. -/
noncomputable def BPFO (e : Entrada) : ℝ :=
  ((e.numero_elementos : ℝ) / 2) * (1 - bd_pd e * cos_beta e) * f_rot e

/-- Line 47: `BPFI = (numero_elementos / 2) * (1 + bd_pd * cos_beta) * f_rot`. -/
noncomputable def BPFI (e : Entrada) : ℝ :=
  ((e.numero_elementos : ℝ) / 2) * (1 + bd_pd e * cos_beta e) * f_rot e

/-- Line 51: `FTF = (1 / 2) * (1 - bd_pd * cos_beta) * f_rot`. -/
noncomputable def FTF (e : Entrada) : ℝ :=
  ((1 : ℝ) / 2) * (1 - bd_pd e * cos_beta e) * f_rot e

/-- Line 55: `BSF = (Pd / (2 * diametro_elemento)) * (1 - (bd_pd * cos_beta)**2) * f_rot`. -/
noncomputable def BSF (e : Entrada) : ℝ :=
  (Pd e / (2 * e.diametro_elemento)) * (1 - (bd_pd e * cos_beta e) ^ 2) * f_rot e

/-- Line 58: `orden_BPFO = BPFO / f_rot` (value when it does not raise). -/
noncomputable def orden_BPFO (e : Entrada) : ℝ := BPFO e / f_rot e

/-- Line 59: `orden_BPFI = BPFI / f_rot`. -/
noncomputable def orden_BPFI (e : Entrada) : ℝ := BPFI e / f_rot e

/-- Line 60: `orden_FTF = FTF / f_rot`. -/
noncomputable def orden_FTF (e : Entrada) : ℝ := FTF e / f_rot e

/-- Line 61: `orden_BSF = BSF / f_rot`. -/
noncomputable def orden_BSF (e : Entrada) : ℝ := BSF e / f_rot e

/-- Integer rounding with ties to even, the decimal rounding CPython's `round`
performs on the scaled value. -/
noncomputable def roundHalfEven (x : ℝ) : ℤ :=
  if Int.fract x = 1 / 2 then (if Even ⌊x⌋ then ⌊x⌋ else ⌊x⌋ + 1) else round x

/-- Python's `round(x, 2)`: round to the nearest multiple of 1/100, ties to
the even multiple. -/
noncomputable def pyround2 (x : ℝ) : ℝ := (roundHalfEven (x * 100) : ℝ) / 100

/-- Python float division: raises `ZeroDivisionError` (here: `none`) when the
divisor is zero, otherwise the quotient. -/
noncomputable def pydiv (a b : ℝ) : Option ℝ :=
  if b = 0 then none else some (a / b)

/-- Lines 63–112: the dict literal `resultados`, built from the computed
quantities with `round(·, 2)` exactly where the source applies it. -/
noncomputable def resultadosJVal (e : Entrada) : JVal :=
  JVal.obj [
    ("parametros", JVal.obj [
      ("d_interno_mm", JVal.num e.d_interno),
      ("D_externo_mm", JVal.num e.D_externo),
      ("diametro_primitivo_mm", JVal.num (Pd e)),
      ("numero_elementos", JVal.num (e.numero_elementos : ℝ)),
      ("diametro_elemento_mm", JVal.num e.diametro_elemento),
      ("angulo_contacto_grados", JVal.num e.angulo_contacto),
      ("rpm", JVal.num e.rpm),
      ("frecuencia_rotacion_hz", JVal.num (pyround2 (f_rot e)))]),
    ("frecuencias", JVal.obj [
      ("BPFO", JVal.obj [
        ("hz", JVal.num (pyround2 (BPFO e))),
        ("orden", JVal.num (pyround2 (orden_BPFO e))),
        ("descripcion", JVal.str "Pista Externa (Outer Race)"),
        ("armonicas", JVal.obj [
          ("2x", JVal.num (pyround2 (BPFO e * 2))),
          ("3x", JVal.num (pyround2 (BPFO e * 3)))])]),
      ("BPFI", JVal.obj [
        ("hz", JVal.num (pyround2 (BPFI e))),
        ("orden", JVal.num (pyround2 (orden_BPFI e))),
        ("descripcion", JVal.str "Pista Interna (Inner Race)"),
        ("armonicas", JVal.obj [
          ("2x", JVal.num (pyround2 (BPFI e * 2))),
          ("3x", JVal.num (pyround2 (BPFI e * 3)))])]),
      ("FTF", JVal.obj [
        ("hz", JVal.num (pyround2 (FTF e))),
        ("orden", JVal.num (pyround2 (orden_FTF e))),
        ("descripcion", JVal.str "Jaula (Cage)"),
        ("armonicas", JVal.obj [
          ("2x", JVal.num (pyround2 (FTF e * 2))),
          ("3x", JVal.num (pyround2 (FTF e * 3)))])]),
      ("BSF", JVal.obj [
        ("hz", JVal.num (pyround2 (BSF e))),
        ("orden", JVal.num (pyround2 (orden_BSF e))),
        ("descripcion", JVal.str "Elemento Rodante (Rolling Element)"),
        ("armonicas", JVal.obj [
          ("2x", JVal.num (pyround2 (BSF e * 2))),
          ("3x", JVal.num (pyround2 (BSF e * 3)))])])])]

/-- The whole function body of `calcular_frecuencias_falla` (lines 27–114).
Each Python division whose divisor is not a nonzero constant is guarded by
`pydiv`, in source order: `diametro_elemento / Pd` (line 33),
`Pd / (2 * diametro_elemento)` inside BSF (line 55), and the four order
divisions by `f_rot` (lines 58–61).  Divisions by the constants 2 and 60
cannot raise and appear directly in the quantity definitions above.  On
success it returns the dict of lines 63–112. -/
noncomputable def calcular_frecuencias_falla (e : Entrada) : Option JVal := do
  let _bd ← pydiv e.diametro_elemento (Pd e)
  let _coef ← pydiv (Pd e) (2 * e.diametro_elemento)
  let _o1 ← pydiv (BPFO e) (f_rot e)
  let _o2 ← pydiv (BPFI e) (f_rot e)
  let _o3 ← pydiv (FTF e) (f_rot e)
  let _o4 ← pydiv (BSF e) (f_rot e)
  pure (resultadosJVal e)

/-- The bearing of worked example 1 in the script: Timken 30302 at 1500 RPM. -/
noncomputable def e30302 : Entrada :=
  ⟨15, 42, 14, 6.5, 15, 1500⟩

lemma f_rot_ne_zero {e : Entrada} (h : e.rpm ≠ 0) : f_rot e ≠ 0 :=
  div_ne_zero h (by norm_num)

/-- When no division raises, the function returns the result dict. -/
lemma calcular_eq (e : Entrada) (h1 : Pd e ≠ 0) (h2 : e.diametro_elemento ≠ 0)
    (h3 : e.rpm ≠ 0) :
    calcular_frecuencias_falla e = some (resultadosJVal e) := by
  have hf : f_rot e ≠ 0 := f_rot_ne_zero h3
  have h2' : (2 : ℝ) * e.diametro_elemento ≠ 0 := by
    exact mul_ne_zero two_ne_zero h2
  simp [calcular_frecuencias_falla, pydiv, h1, h2', hf]

/-- If `x` lies strictly between `n - 1/2` and `n + 1/2` there is no tie, and
rounding half-to-even gives `n`. -/
lemma roundHalfEven_eq_of_lt (n : ℤ) (x : ℝ) (h1 : (n : ℝ) - 1 / 2 < x)
    (h2 : x < (n : ℝ) + 1 / 2) : roundHalfEven x = n := by
  have hfr : Int.fract x ≠ 1 / 2 := by
    intro hfr
    have hx : x = (⌊x⌋ : ℝ) + 1 / 2 := by
      have := Int.fract_add_floor x
      rw [hfr] at this
      linarith
    rw [hx] at h1 h2
    have hlt : ⌊x⌋ < n := by exact_mod_cast (by linarith : (⌊x⌋ : ℝ) < (n : ℝ))
    have hgt : n - 1 < ⌊x⌋ := by
      have hr : ((n : ℤ) - 1 : ℤ) < (⌊x⌋ : ℤ) := by
        exact_mod_cast (by push_cast; linarith : ((n - 1 : ℤ) : ℝ) < (⌊x⌋ : ℝ))
      exact hr
    omega
  rw [roundHalfEven, if_neg hfr, round_eq]
  rw [Int.floor_eq_iff]
  refine ⟨by linarith, by linarith⟩

/-- Rounding a value strictly between `(n - 1/2)/100` and `(n + 1/2)/100`
to two decimals gives `n / 100`. -/
lemma pyround2_eq (x : ℝ) (n : ℤ) (h1 : (n : ℝ) - 1 / 2 < x * 100)
    (h2 : x * 100 < (n : ℝ) + 1 / 2) : pyround2 x = (n : ℝ) / 100 := by
  rw [pyround2, roundHalfEven_eq_of_lt n _ h1 h2]

/-- At an exact tie, `pyround2` picks the even hundredth: 0.125 rounds to
0.12, as Python's `round(0.125, 2)` does. -/
lemma pyround2_tie : pyround2 (1 / 8) = 0.12 := by
  have hx : (1 : ℝ) / 8 * 100 = 12.5 := by norm_num
  have hfl : ⌊(12.5 : ℝ)⌋ = 12 := by
    rw [Int.floor_eq_iff]
    norm_num
  have hfr : Int.fract (12.5 : ℝ) = 1 / 2 := by
    rw [Int.fract, hfl]; norm_num
  rw [pyround2, hx, roundHalfEven, if_pos hfr, hfl, if_pos (by decide)]
  norm_num

lemma sqrt_two_gt : (1.414213 : ℝ) < Real.sqrt 2 := by
  rw [show (2 : ℝ) = 2 by norm_num]
  exact (Real.lt_sqrt (by norm_num)).mpr (by norm_num)

lemma sqrt_two_lt : Real.sqrt 2 < 1.414214 :=
  (Real.sqrt_lt' (by norm_num)).mpr (by norm_num)

lemma sqrt_three_gt : (1.732050 : ℝ) < Real.sqrt 3 :=
  (Real.lt_sqrt (by norm_num)).mpr (by norm_num)

lemma sqrt_three_lt : Real.sqrt 3 < 1.732051 :=
  (Real.sqrt_lt' (by norm_num)).mpr (by norm_num)

/-- Bounds on cos 15°, via cos(π/3 − π/4). -/
lemma cos15_bounds :
    (0.96592 : ℝ) < Real.cos (15 * (Real.pi / 180)) ∧
      Real.cos (15 * (Real.pi / 180)) < 0.96593 := by
  have h : (15 : ℝ) * (Real.pi / 180) = Real.pi / 3 - Real.pi / 4 := by ring
  rw [h, Real.cos_sub, Real.cos_pi_div_three, Real.cos_pi_div_four,
    Real.sin_pi_div_three, Real.sin_pi_div_four]
  have a1 := sqrt_two_gt
  have a2 := sqrt_two_lt
  have b1 := sqrt_three_gt
  have b2 := sqrt_three_lt
  constructor <;> nlinarith [Real.sqrt_nonneg 2, Real.sqrt_nonneg 3]

lemma Pd_30302 : Pd e30302 = 28.5 := by
  show ((15 : ℝ) + 42) / 2 = 28.5
  norm_num

lemma frot_30302 : f_rot e30302 = 25 := by
  show (1500 : ℝ) / 60 = 25
  norm_num

lemma frot_30302_round : pyround2 (f_rot e30302) = 25 := by
  rw [frot_30302]
  have h := pyround2_eq 25 2500 (by push_cast; norm_num) (by push_cast; norm_num)
  rw [h]; norm_num

lemma BPFO_30302 : pyround2 (BPFO e30302) = 136.45 := by
  obtain ⟨hc1, hc2⟩ := cos15_bounds
  set c := Real.cos (15 * (Real.pi / 180)) with hcdef
  have hB : BPFO e30302 * 100 = 17500 - 227500 / 57 * c := by
    show ((14 : ℕ) : ℝ) / 2 * (1 - 6.5 / ((15 + 42) / 2) * c) * (1500 / 60) * 100 =
      17500 - 227500 / 57 * c
    push_cast
    ring_nf
  have h1 : ((13645 : ℤ) : ℝ) - 1 / 2 < BPFO e30302 * 100 := by
    rw [hB]; push_cast; nlinarith
  have h2 : BPFO e30302 * 100 < ((13645 : ℤ) : ℝ) + 1 / 2 := by
    rw [hB]; push_cast; nlinarith
  rw [pyround2_eq _ _ h1 h2]; norm_num

lemma BPFI_30302 : pyround2 (BPFI e30302) = 213.55 := by
  obtain ⟨hc1, hc2⟩ := cos15_bounds
  set c := Real.cos (15 * (Real.pi / 180)) with hcdef
  have hB : BPFI e30302 * 100 = 17500 + 227500 / 57 * c := by
    show ((14 : ℕ) : ℝ) / 2 * (1 + 6.5 / ((15 + 42) / 2) * c) * (1500 / 60) * 100 =
      17500 + 227500 / 57 * c
    push_cast
    ring_nf
  have h1 : ((21355 : ℤ) : ℝ) - 1 / 2 < BPFI e30302 * 100 := by
    rw [hB]; push_cast; nlinarith
  have h2 : BPFI e30302 * 100 < ((21355 : ℤ) : ℝ) + 1 / 2 := by
    rw [hB]; push_cast; nlinarith
  rw [pyround2_eq _ _ h1 h2]; norm_num

lemma FTF_30302 : pyround2 (FTF e30302) = 9.75 := by
  obtain ⟨hc1, hc2⟩ := cos15_bounds
  set c := Real.cos (15 * (Real.pi / 180)) with hcdef
  have hB : FTF e30302 * 100 = 1250 - 16250 / 57 * c := by
    show ((1 : ℝ) / 2) * (1 - 6.5 / ((15 + 42) / 2) * c) * (1500 / 60) * 100 =
      1250 - 16250 / 57 * c
    ring_nf
  have h1 : ((975 : ℤ) : ℝ) - 1 / 2 < FTF e30302 * 100 := by
    rw [hB]; push_cast; nlinarith
  have h2 : FTF e30302 * 100 < ((975 : ℤ) : ℝ) + 1 / 2 := by
    rw [hB]; push_cast; nlinarith
  rw [pyround2_eq _ _ h1 h2]; norm_num

lemma BSF_30302 : pyround2 (BSF e30302) = 52.15 := by
  obtain ⟨hc1, hc2⟩ := cos15_bounds
  set c := Real.cos (15 * (Real.pi / 180)) with hcdef
  have hB : BSF e30302 * 100 = 71250 / 13 - 926250 / 3249 * c ^ 2 := by
    show ((15 + 42) / 2 / (2 * (6.5 : ℝ))) * (1 - (6.5 / ((15 + 42) / 2) * c) ^ 2) *
      (1500 / 60) * 100 = 71250 / 13 - 926250 / 3249 * c ^ 2
    ring_nf
  have h1 : ((5215 : ℤ) : ℝ) - 1 / 2 < BSF e30302 * 100 := by
    rw [hB]; push_cast; nlinarith
  have h2 : BSF e30302 * 100 < ((5215 : ℤ) : ℝ) + 1 / 2 := by
    rw [hB]; push_cast; nlinarith
  rw [pyround2_eq _ _ h1 h2]; norm_num

/-- Transcribed from the spec (§4.1): `radians(contactAngleDegrees)`. -/
noncomputable def spec_radians (deg : ℝ) : ℝ := deg * (Real.pi / 180)

/-- Transcribed from the spec (§4.1): `Pd = (innerDiameter + outerDiameter) / 2`. -/
noncomputable def spec_Pd (e : Entrada) : ℝ := (e.d_interno + e.D_externo) / 2

/-- Transcribed from the spec (§4.1): `cosBeta = cos(beta)`. -/
noncomputable def spec_cosBeta (e : Entrada) : ℝ :=
  Real.cos (spec_radians e.angulo_contacto)

/-- Transcribed from the spec (§4.1): `fRot = rpm / 60`. -/
noncomputable def spec_fRot (e : Entrada) : ℝ := e.rpm / 60

/-- Transcribed from the spec (§4.1):
`BPFO = (elementCount / 2) * (1 - ratio * cosBeta) * fRot` with
`ratio = elementDiameter / Pd`. -/
noncomputable def spec_BPFO (e : Entrada) : ℝ :=
  ((e.numero_elementos : ℝ) / 2) *
    (1 - (e.diametro_elemento / spec_Pd e) * spec_cosBeta e) * spec_fRot e

/-- Transcribed from the spec (§4.1):
`BPFI = (elementCount / 2) * (1 + ratio * cosBeta) * fRot`. -/
noncomputable def spec_BPFI (e : Entrada) : ℝ :=
  ((e.numero_elementos : ℝ) / 2) *
    (1 + (e.diametro_elemento / spec_Pd e) * spec_cosBeta e) * spec_fRot e

/-- Transcribed from the spec (§4.1):
`FTF = 0.5 * (1 - ratio * cosBeta) * fRot`. -/
noncomputable def spec_FTF (e : Entrada) : ℝ :=
  (0.5 : ℝ) * (1 - (e.diametro_elemento / spec_Pd e) * spec_cosBeta e) * spec_fRot e

/-- Transcribed from the spec (§4.1):
`BSF = (Pd / (2 * elementDiameter)) * (1 - (ratio * cosBeta)^2) * fRot`. -/
noncomputable def spec_BSF (e : Entrada) : ℝ :=
  (spec_Pd e / (2 * e.diametro_elemento)) *
    (1 - ((e.diametro_elemento / spec_Pd e) * spec_cosBeta e) ^ 2) * spec_fRot e

/-- C1: for every input, the unrounded quantities computed by
`calcular_frecuencias_falla` equal exactly the spec formulas: the pitch
diameter, rotation frequency, diameter ratio, contact-angle cosine, and the
four characteristic frequencies, with `elementCount / 2` as real division
(so twice it recovers the element count even when the count is odd). -/
theorem C1_formulas (e : Entrada) :
    Pd e = spec_Pd e ∧
    f_rot e = spec_fRot e ∧
    bd_pd e = e.diametro_elemento / spec_Pd e ∧
    cos_beta e = spec_cosBeta e ∧
    BPFO e = spec_BPFO e ∧
    BPFI e = spec_BPFI e ∧
    FTF e = spec_FTF e ∧
    BSF e = spec_BSF e ∧
    2 * ((e.numero_elementos : ℝ) / 2) = (e.numero_elementos : ℝ) := by
  refine ⟨rfl, rfl, rfl, rfl, rfl, rfl, ?_, rfl, by ring⟩
  unfold FTF spec_FTF spec_Pd spec_cosBeta spec_fRot spec_radians bd_pd cos_beta beta_rad Pd f_rot
  norm_num

/-- C2, counterexample: at rpm = 0 (all other parameters those of the worked
example) the function does not return a record at all: the order computation
`BPFO / f_rot` divides by zero, which in Python raises `ZeroDivisionError`
(modelled as `none`), so no zero-valued result is produced. -/
theorem C2_counterexample :
    calcular_frecuencias_falla ⟨15, 42, 14, 6.5, 15, 0⟩ = none := by
  norm_num [calcular_frecuencias_falla, pydiv, Pd, f_rot]

/-- C2, amended: for rpm = 0 the rotation frequency and all four unrounded
frequencies are exactly 0, but `calcular_frecuencias_falla` does not return a
record: computing the orders divides by `f_rot = 0`, raising
`ZeroDivisionError` (modelled as `none`). -/
theorem C2_amended (e : Entrada) (h : e.rpm = 0) :
    f_rot e = 0 ∧ BPFO e = 0 ∧ BPFI e = 0 ∧ FTF e = 0 ∧ BSF e = 0 ∧
    calcular_frecuencias_falla e = none := by
  have hf : f_rot e = 0 := by rw [f_rot, h]; norm_num
  refine ⟨hf, ?_, ?_, ?_, ?_, ?_⟩
  · unfold BPFO; rw [hf]; ring
  · unfold BPFI; rw [hf]; ring
  · unfold FTF; rw [hf]; ring
  · unfold BSF; rw [hf]; ring
  by_cases h1 : Pd e = 0
  · simp [calcular_frecuencias_falla, pydiv, h1]
  by_cases h2 : e.diametro_elemento = 0
  · have h2' : (2 : ℝ) * e.diametro_elemento = 0 := by rw [h2]; ring
    simp [calcular_frecuencias_falla, pydiv, h1, h2']
  have h2' : (2 : ℝ) * e.diametro_elemento ≠ 0 := mul_ne_zero two_ne_zero h2
  simp [calcular_frecuencias_falla, pydiv, h1, h2', hf]

/-- Witness for C2: the amended statement instantiated at the worked example
with rpm = 0. -/
theorem C2_amended_witness :
    (Entrada.rpm ⟨15, 42, 14, 6.5, 15, 0⟩ = 0) ∧
      (f_rot ⟨15, 42, 14, 6.5, 15, 0⟩ = 0 ∧ BPFO ⟨15, 42, 14, 6.5, 15, 0⟩ = 0 ∧
        BPFI ⟨15, 42, 14, 6.5, 15, 0⟩ = 0 ∧ FTF ⟨15, 42, 14, 6.5, 15, 0⟩ = 0 ∧
        BSF ⟨15, 42, 14, 6.5, 15, 0⟩ = 0 ∧
        calcular_frecuencias_falla ⟨15, 42, 14, 6.5, 15, 0⟩ = none) :=
  ⟨rfl, C2_amended ⟨15, 42, 14, 6.5, 15, 0⟩ rfl⟩

/-- C7: whenever the rotation frequency is nonzero, each order value is
exactly the corresponding frequency divided by the rotation frequency
(equivalently, order times rotation frequency recovers the frequency). -/
theorem C7_orders (e : Entrada) (h : f_rot e ≠ 0) :
    (orden_BPFO e = BPFO e / f_rot e ∧ orden_BPFO e * f_rot e = BPFO e) ∧
    (orden_BPFI e = BPFI e / f_rot e ∧ orden_BPFI e * f_rot e = BPFI e) ∧
    (orden_FTF e = FTF e / f_rot e ∧ orden_FTF e * f_rot e = FTF e) ∧
    (orden_BSF e = BSF e / f_rot e ∧ orden_BSF e * f_rot e = BSF e) :=
  ⟨⟨rfl, div_mul_cancel₀ _ h⟩, ⟨rfl, div_mul_cancel₀ _ h⟩,
    ⟨rfl, div_mul_cancel₀ _ h⟩, ⟨rfl, div_mul_cancel₀ _ h⟩⟩

/-- Witness for C7 at the worked example (1500 RPM, so f_rot = 25 ≠ 0). -/
theorem C7_orders_witness :
    (f_rot e30302 ≠ 0) ∧
      ((orden_BPFO e30302 = BPFO e30302 / f_rot e30302 ∧
          orden_BPFO e30302 * f_rot e30302 = BPFO e30302) ∧
        (orden_BPFI e30302 = BPFI e30302 / f_rot e30302 ∧
          orden_BPFI e30302 * f_rot e30302 = BPFI e30302) ∧
        (orden_FTF e30302 = FTF e30302 / f_rot e30302 ∧
          orden_FTF e30302 * f_rot e30302 = FTF e30302) ∧
        (orden_BSF e30302 = BSF e30302 / f_rot e30302 ∧
          orden_BSF e30302 * f_rot e30302 = BSF e30302)) :=
  ⟨by norm_num [f_rot, e30302], C7_orders e30302 (by norm_num [f_rot, e30302])⟩

/-- C10: for every input, the two race-pass frequencies sum to the element
count times the rotation frequency, and BPFO is exactly the element count
times the cage frequency FTF. -/
theorem C10_race_relations (e : Entrada) :
    BPFO e + BPFI e = (e.numero_elementos : ℝ) * f_rot e ∧
    BPFO e = (e.numero_elementos : ℝ) * FTF e := by
  unfold BPFO BPFI FTF
  constructor <;> ring

/-- C9: scaling rpm by a positive factor k scales the rotation frequency and
all four unrounded frequencies by exactly k and leaves all four order values
unchanged. -/
theorem C9_rpm_scaling (e : Entrada) (k : ℝ) (hk : 0 < k) :
    f_rot { e with rpm := k * e.rpm } = k * f_rot e ∧
    BPFO { e with rpm := k * e.rpm } = k * BPFO e ∧
    BPFI { e with rpm := k * e.rpm } = k * BPFI e ∧
    FTF { e with rpm := k * e.rpm } = k * FTF e ∧
    BSF { e with rpm := k * e.rpm } = k * BSF e ∧
    orden_BPFO { e with rpm := k * e.rpm } = orden_BPFO e ∧
    orden_BPFI { e with rpm := k * e.rpm } = orden_BPFI e ∧
    orden_FTF { e with rpm := k * e.rpm } = orden_FTF e ∧
    orden_BSF { e with rpm := k * e.rpm } = orden_BSF e := by
  have hfr : f_rot { e with rpm := k * e.rpm } = k * f_rot e := by
    unfold f_rot; ring
  have h1 : BPFO { e with rpm := k * e.rpm } = k * BPFO e := by
    unfold BPFO bd_pd cos_beta beta_rad Pd f_rot; ring
  have h2 : BPFI { e with rpm := k * e.rpm } = k * BPFI e := by
    unfold BPFI bd_pd cos_beta beta_rad Pd f_rot; ring
  have h3 : FTF { e with rpm := k * e.rpm } = k * FTF e := by
    unfold FTF bd_pd cos_beta beta_rad Pd f_rot; ring
  have h4 : BSF { e with rpm := k * e.rpm } = k * BSF e := by
    unfold BSF bd_pd cos_beta beta_rad Pd f_rot; ring
  refine ⟨hfr, h1, h2, h3, h4, ?_, ?_, ?_, ?_⟩
  · unfold orden_BPFO; rw [h1, hfr, mul_div_mul_left _ _ (ne_of_gt hk)]
  · unfold orden_BPFI; rw [h2, hfr, mul_div_mul_left _ _ (ne_of_gt hk)]
  · unfold orden_FTF; rw [h3, hfr, mul_div_mul_left _ _ (ne_of_gt hk)]
  · unfold orden_BSF; rw [h4, hfr, mul_div_mul_left _ _ (ne_of_gt hk)]

/-- Witness for C9: doubling rpm (k = 2) at the worked example, the doubling
of 1500 RPM to 3000 RPM from the spec scenario. -/
theorem C9_rpm_scaling_witness :
    ((0 : ℝ) < 2) ∧
      (f_rot { e30302 with rpm := 2 * e30302.rpm } = 2 * f_rot e30302 ∧
        BPFO { e30302 with rpm := 2 * e30302.rpm } = 2 * BPFO e30302 ∧
        BPFI { e30302 with rpm := 2 * e30302.rpm } = 2 * BPFI e30302 ∧
        FTF { e30302 with rpm := 2 * e30302.rpm } = 2 * FTF e30302 ∧
        BSF { e30302 with rpm := 2 * e30302.rpm } = 2 * BSF e30302 ∧
        orden_BPFO { e30302 with rpm := 2 * e30302.rpm } = orden_BPFO e30302 ∧
        orden_BPFI { e30302 with rpm := 2 * e30302.rpm } = orden_BPFI e30302 ∧
        orden_FTF { e30302 with rpm := 2 * e30302.rpm } = orden_FTF e30302 ∧
        orden_BSF { e30302 with rpm := 2 * e30302.rpm } = orden_BSF e30302) :=
  ⟨by norm_num, C9_rpm_scaling e30302 2 (by norm_num)⟩

/-- C3, counterexample: at the spec's concrete scenario the code's BPFO
rounds to 136.45 Hz, not the claimed 155.91 Hz. -/
theorem C3_counterexample :
    pyround2 (BPFO e30302) = 136.45 ∧ (136.45 : ℝ) ≠ 155.91 :=
  ⟨BPFO_30302, by norm_num⟩

/-- C3, amended: for innerDiameter 15, outerDiameter 42, 14 elements, element
diameter 6.5, contact angle 15°, 1500 RPM, the code yields rotation frequency
25.00 Hz and pitch diameter 28.5 mm, and the four frequencies round to
BPFO = 136.45 Hz, BPFI = 213.55 Hz, FTF = 9.75 Hz, BSF = 52.15 Hz. -/
theorem C3_scenario :
    Pd e30302 = 28.5 ∧ pyround2 (f_rot e30302) = 25 ∧
    pyround2 (BPFO e30302) = 136.45 ∧ pyround2 (BPFI e30302) = 213.55 ∧
    pyround2 (FTF e30302) = 9.75 ∧ pyround2 (BSF e30302) = 52.15 :=
  ⟨Pd_30302, frot_30302_round, BPFO_30302, BPFI_30302, FTF_30302, BSF_30302⟩

/-- C4, counterexample: with inner diameter 1.001 and outer diameter 2.002
the record stores the pitch diameter 1.5015 unrounded — a numeric value of
the record that is not rounded to 2 decimal places.  Moreover at an exact
tie the rounding used by the code picks the even hundredth (0.125 → 0.12),
not the half-away-from-zero result 0.13. -/
theorem C4_counterexample :
    getPath (calcular_frecuencias_falla ⟨1.001, 2.002, 14, 0.5, 0, 600⟩)
        ["parametros", "diametro_primitivo_mm"] = some (JVal.num 1.5015) ∧
      pyround2 1.5015 ≠ 1.5015 ∧
      pyround2 (1 / 8) = 0.12 ∧ (0.12 : ℝ) ≠ 13 / 100 := by
  have hval : pyround2 1.5015 = 1.5 := by
    have h := pyround2_eq 1.5015 150 (by push_cast; norm_num) (by push_cast; norm_num)
    rw [h]; norm_num
  refine ⟨?_, by rw [hval]; norm_num, pyround2_tie, by norm_num⟩
  rw [calcular_eq ⟨1.001, 2.002, 14, 0.5, 0, 600⟩ (by norm_num [Pd])
    (by norm_num) (by norm_num)]
  simp [getPath, resultadosJVal, JVal.get, List.lookup, Pd]
  norm_num

/-- C4, amended: in the returned record only the rotation frequency and the
frequency, order and harmonic values are rounded to 2 decimal places (with
ties to the even hundredth, Python's `round`); the echoed inputs and the
derived pitch diameter are stored unrounded. -/
theorem C4_rounding (e : Entrada) (h1 : Pd e ≠ 0) (h2 : e.diametro_elemento ≠ 0)
    (h3 : e.rpm ≠ 0) :
    getPath (calcular_frecuencias_falla e) ["parametros", "d_interno_mm"] =
        some (JVal.num e.d_interno) ∧
    getPath (calcular_frecuencias_falla e) ["parametros", "D_externo_mm"] =
        some (JVal.num e.D_externo) ∧
    getPath (calcular_frecuencias_falla e) ["parametros", "numero_elementos"] =
        some (JVal.num (e.numero_elementos : ℝ)) ∧
    getPath (calcular_frecuencias_falla e) ["parametros", "diametro_elemento_mm"] =
        some (JVal.num e.diametro_elemento) ∧
    getPath (calcular_frecuencias_falla e) ["parametros", "angulo_contacto_grados"] =
        some (JVal.num e.angulo_contacto) ∧
    getPath (calcular_frecuencias_falla e) ["parametros", "rpm"] =
        some (JVal.num e.rpm) ∧
    getPath (calcular_frecuencias_falla e) ["parametros", "diametro_primitivo_mm"] =
        some (JVal.num (Pd e)) ∧
    getPath (calcular_frecuencias_falla e) ["parametros", "frecuencia_rotacion_hz"] =
        some (JVal.num (pyround2 (f_rot e))) ∧
    getPath (calcular_frecuencias_falla e) ["frecuencias", "BPFO", "hz"] =
        some (JVal.num (pyround2 (BPFO e))) ∧
    getPath (calcular_frecuencias_falla e) ["frecuencias", "BPFO", "orden"] =
        some (JVal.num (pyround2 (orden_BPFO e))) ∧
    getPath (calcular_frecuencias_falla e) ["frecuencias", "BPFO", "armonicas", "2x"] =
        some (JVal.num (pyround2 (BPFO e * 2))) ∧
    getPath (calcular_frecuencias_falla e) ["frecuencias", "BPFO", "armonicas", "3x"] =
        some (JVal.num (pyround2 (BPFO e * 3))) ∧
    getPath (calcular_frecuencias_falla e) ["frecuencias", "BPFI", "hz"] =
        some (JVal.num (pyround2 (BPFI e))) ∧
    getPath (calcular_frecuencias_falla e) ["frecuencias", "BPFI", "orden"] =
        some (JVal.num (pyround2 (orden_BPFI e))) ∧
    getPath (calcular_frecuencias_falla e) ["frecuencias", "BPFI", "armonicas", "2x"] =
        some (JVal.num (pyround2 (BPFI e * 2))) ∧
    getPath (calcular_frecuencias_falla e) ["frecuencias", "BPFI", "armonicas", "3x"] =
        some (JVal.num (pyround2 (BPFI e * 3))) ∧
    getPath (calcular_frecuencias_falla e) ["frecuencias", "FTF", "hz"] =
        some (JVal.num (pyround2 (FTF e))) ∧
    getPath (calcular_frecuencias_falla e) ["frecuencias", "FTF", "orden"] =
        some (JVal.num (pyround2 (orden_FTF e))) ∧
    getPath (calcular_frecuencias_falla e) ["frecuencias", "FTF", "armonicas", "2x"] =
        some (JVal.num (pyround2 (FTF e * 2))) ∧
    getPath (calcular_frecuencias_falla e) ["frecuencias", "FTF", "armonicas", "3x"] =
        some (JVal.num (pyround2 (FTF e * 3))) ∧
    getPath (calcular_frecuencias_falla e) ["frecuencias", "BSF", "hz"] =
        some (JVal.num (pyround2 (BSF e))) ∧
    getPath (calcular_frecuencias_falla e) ["frecuencias", "BSF", "orden"] =
        some (JVal.num (pyround2 (orden_BSF e))) ∧
    getPath (calcular_frecuencias_falla e) ["frecuencias", "BSF", "armonicas", "2x"] =
        some (JVal.num (pyround2 (BSF e * 2))) ∧
    getPath (calcular_frecuencias_falla e) ["frecuencias", "BSF", "armonicas", "3x"] =
        some (JVal.num (pyround2 (BSF e * 3))) ∧
    pyround2 (1 / 8) = 0.12 := by
  rw [calcular_eq e h1 h2 h3]
  refine ⟨?_, ?_, ?_, ?_, ?_, ?_, ?_, ?_, ?_, ?_, ?_, ?_, ?_, ?_, ?_, ?_, ?_, ?_,
    ?_, ?_, ?_, ?_, ?_, ?_, pyround2_tie⟩ <;>
    simp [getPath, resultadosJVal, JVal.get, List.lookup]

/-- Witness for C4: the amended statement at the worked example. -/
theorem C4_rounding_witness :
    (Pd e30302 ≠ 0 ∧ e30302.diametro_elemento ≠ 0 ∧ e30302.rpm ≠ 0) ∧
      (getPath (calcular_frecuencias_falla e30302) ["parametros", "d_interno_mm"] =
          some (JVal.num e30302.d_interno) ∧
        getPath (calcular_frecuencias_falla e30302) ["parametros", "D_externo_mm"] =
          some (JVal.num e30302.D_externo) ∧
        getPath (calcular_frecuencias_falla e30302) ["parametros", "numero_elementos"] =
          some (JVal.num (e30302.numero_elementos : ℝ)) ∧
        getPath (calcular_frecuencias_falla e30302) ["parametros", "diametro_elemento_mm"] =
          some (JVal.num e30302.diametro_elemento) ∧
        getPath (calcular_frecuencias_falla e30302) ["parametros", "angulo_contacto_grados"] =
          some (JVal.num e30302.angulo_contacto) ∧
        getPath (calcular_frecuencias_falla e30302) ["parametros", "rpm"] =
          some (JVal.num e30302.rpm) ∧
        getPath (calcular_frecuencias_falla e30302) ["parametros", "diametro_primitivo_mm"] =
          some (JVal.num (Pd e30302)) ∧
        getPath (calcular_frecuencias_falla e30302) ["parametros", "frecuencia_rotacion_hz"] =
          some (JVal.num (pyround2 (f_rot e30302))) ∧
        getPath (calcular_frecuencias_falla e30302) ["frecuencias", "BPFO", "hz"] =
          some (JVal.num (pyround2 (BPFO e30302))) ∧
        getPath (calcular_frecuencias_falla e30302) ["frecuencias", "BPFO", "orden"] =
          some (JVal.num (pyround2 (orden_BPFO e30302))) ∧
        getPath (calcular_frecuencias_falla e30302) ["frecuencias", "BPFO", "armonicas", "2x"] =
          some (JVal.num (pyround2 (BPFO e30302 * 2))) ∧
        getPath (calcular_frecuencias_falla e30302) ["frecuencias", "BPFO", "armonicas", "3x"] =
          some (JVal.num (pyround2 (BPFO e30302 * 3))) ∧
        getPath (calcular_frecuencias_falla e30302) ["frecuencias", "BPFI", "hz"] =
          some (JVal.num (pyround2 (BPFI e30302))) ∧
        getPath (calcular_frecuencias_falla e30302) ["frecuencias", "BPFI", "orden"] =
          some (JVal.num (pyround2 (orden_BPFI e30302))) ∧
        getPath (calcular_frecuencias_falla e30302) ["frecuencias", "BPFI", "armonicas", "2x"] =
          some (JVal.num (pyround2 (BPFI e30302 * 2))) ∧
        getPath (calcular_frecuencias_falla e30302) ["frecuencias", "BPFI", "armonicas", "3x"] =
          some (JVal.num (pyround2 (BPFI e30302 * 3))) ∧
        getPath (calcular_frecuencias_falla e30302) ["frecuencias", "FTF", "hz"] =
          some (JVal.num (pyround2 (FTF e30302))) ∧
        getPath (calcular_frecuencias_falla e30302) ["frecuencias", "FTF", "orden"] =
          some (JVal.num (pyround2 (orden_FTF e30302))) ∧
        getPath (calcular_frecuencias_falla e30302) ["frecuencias", "FTF", "armonicas", "2x"] =
          some (JVal.num (pyround2 (FTF e30302 * 2))) ∧
        getPath (calcular_frecuencias_falla e30302) ["frecuencias", "FTF", "armonicas", "3x"] =
          some (JVal.num (pyround2 (FTF e30302 * 3))) ∧
        getPath (calcular_frecuencias_falla e30302) ["frecuencias", "BSF", "hz"] =
          some (JVal.num (pyround2 (BSF e30302))) ∧
        getPath (calcular_frecuencias_falla e30302) ["frecuencias", "BSF", "orden"] =
          some (JVal.num (pyround2 (orden_BSF e30302))) ∧
        getPath (calcular_frecuencias_falla e30302) ["frecuencias", "BSF", "armonicas", "2x"] =
          some (JVal.num (pyround2 (BSF e30302 * 2))) ∧
        getPath (calcular_frecuencias_falla e30302) ["frecuencias", "BSF", "armonicas", "3x"] =
          some (JVal.num (pyround2 (BSF e30302 * 3))) ∧
        pyround2 (1 / 8) = 0.12) :=
  ⟨⟨by norm_num [Pd, e30302], by norm_num [e30302], by norm_num [e30302]⟩,
    C4_rounding e30302 (by norm_num [Pd, e30302]) (by norm_num [e30302])
      (by norm_num [e30302])⟩

/-- C5, counterexample: the top-level keys of the export are the Spanish
`parametros` and `frecuencias`, not the claimed `parameters` and
`frequencies`. -/
theorem C5_counterexample :
    (calcular_frecuencias_falla e30302).map JVal.keys =
        some ["parametros", "frecuencias"] ∧
      ("parametros" : String) ≠ "parameters" ∧
      ("frecuencias" : String) ≠ "frequencies" := by
  refine ⟨?_, by decide, by decide⟩
  rw [calcular_eq e30302 (by norm_num [Pd, e30302]) (by norm_num [e30302])
    (by norm_num [e30302])]
  simp [resultadosJVal, JVal.keys]

/-- C5, amended: the export is a nested mapping with top-level keys
`parametros` and `frecuencias`; `parametros` holds the six inputs plus the
derived pitch diameter and rotation frequency; `frecuencias` holds one entry
per kind (BPFO, BPFI, FTF, BSF), each with keys `hz`, `orden`, `descripcion`
and a nested `armonicas` map with keys `2x` and `3x`. -/
theorem C5_structure (e : Entrada) (h1 : Pd e ≠ 0) (h2 : e.diametro_elemento ≠ 0)
    (h3 : e.rpm ≠ 0) :
    (calcular_frecuencias_falla e).map JVal.keys =
        some ["parametros", "frecuencias"] ∧
    (getPath (calcular_frecuencias_falla e) ["parametros"]).map JVal.keys =
        some ["d_interno_mm", "D_externo_mm", "diametro_primitivo_mm",
          "numero_elementos", "diametro_elemento_mm", "angulo_contacto_grados",
          "rpm", "frecuencia_rotacion_hz"] ∧
    (getPath (calcular_frecuencias_falla e) ["frecuencias"]).map JVal.keys =
        some ["BPFO", "BPFI", "FTF", "BSF"] ∧
    (getPath (calcular_frecuencias_falla e) ["frecuencias", "BPFO"]).map JVal.keys =
        some ["hz", "orden", "descripcion", "armonicas"] ∧
    (getPath (calcular_frecuencias_falla e) ["frecuencias", "BPFI"]).map JVal.keys =
        some ["hz", "orden", "descripcion", "armonicas"] ∧
    (getPath (calcular_frecuencias_falla e) ["frecuencias", "FTF"]).map JVal.keys =
        some ["hz", "orden", "descripcion", "armonicas"] ∧
    (getPath (calcular_frecuencias_falla e) ["frecuencias", "BSF"]).map JVal.keys =
        some ["hz", "orden", "descripcion", "armonicas"] ∧
    (getPath (calcular_frecuencias_falla e) ["frecuencias", "BPFO", "armonicas"]).map JVal.keys =
        some ["2x", "3x"] ∧
    (getPath (calcular_frecuencias_falla e) ["frecuencias", "BPFI", "armonicas"]).map JVal.keys =
        some ["2x", "3x"] ∧
    (getPath (calcular_frecuencias_falla e) ["frecuencias", "FTF", "armonicas"]).map JVal.keys =
        some ["2x", "3x"] ∧
    (getPath (calcular_frecuencias_falla e) ["frecuencias", "BSF", "armonicas"]).map JVal.keys =
        some ["2x", "3x"] := by
  rw [calcular_eq e h1 h2 h3]
  refine ⟨?_, ?_, ?_, ?_, ?_, ?_, ?_, ?_, ?_, ?_, ?_⟩ <;>
    simp [getPath, resultadosJVal, JVal.get, JVal.keys, List.lookup]

/-- Witness for C5: the amended structure at the worked example. -/
theorem C5_structure_witness :
    (Pd e30302 ≠ 0 ∧ e30302.diametro_elemento ≠ 0 ∧ e30302.rpm ≠ 0) ∧
      ((calcular_frecuencias_falla e30302).map JVal.keys =
          some ["parametros", "frecuencias"] ∧
        (getPath (calcular_frecuencias_falla e30302) ["parametros"]).map JVal.keys =
          some ["d_interno_mm", "D_externo_mm", "diametro_primitivo_mm",
            "numero_elementos", "diametro_elemento_mm", "angulo_contacto_grados",
            "rpm", "frecuencia_rotacion_hz"] ∧
        (getPath (calcular_frecuencias_falla e30302) ["frecuencias"]).map JVal.keys =
          some ["BPFO", "BPFI", "FTF", "BSF"] ∧
        (getPath (calcular_frecuencias_falla e30302) ["frecuencias", "BPFO"]).map JVal.keys =
          some ["hz", "orden", "descripcion", "armonicas"] ∧
        (getPath (calcular_frecuencias_falla e30302) ["frecuencias", "BPFI"]).map JVal.keys =
          some ["hz", "orden", "descripcion", "armonicas"] ∧
        (getPath (calcular_frecuencias_falla e30302) ["frecuencias", "FTF"]).map JVal.keys =
          some ["hz", "orden", "descripcion", "armonicas"] ∧
        (getPath (calcular_frecuencias_falla e30302) ["frecuencias", "BSF"]).map JVal.keys =
          some ["hz", "orden", "descripcion", "armonicas"] ∧
        (getPath (calcular_frecuencias_falla e30302) ["frecuencias", "BPFO", "armonicas"]).map JVal.keys =
          some ["2x", "3x"] ∧
        (getPath (calcular_frecuencias_falla e30302) ["frecuencias", "BPFI", "armonicas"]).map JVal.keys =
          some ["2x", "3x"] ∧
        (getPath (calcular_frecuencias_falla e30302) ["frecuencias", "FTF", "armonicas"]).map JVal.keys =
          some ["2x", "3x"] ∧
        (getPath (calcular_frecuencias_falla e30302) ["frecuencias", "BSF", "armonicas"]).map JVal.keys =
          some ["2x", "3x"]) :=
  ⟨⟨by norm_num [Pd, e30302], by norm_num [e30302], by norm_num [e30302]⟩,
    C5_structure e30302 (by norm_num [Pd, e30302]) (by norm_num [e30302])
      (by norm_num [e30302])⟩

/-- C6, counterexample: the descriptive label stored for BPFO is the fixed
string "Pista Externa (Outer Race)", not the claimed "Outer Race". -/
theorem C6_counterexample :
    getPath (calcular_frecuencias_falla e30302) ["frecuencias", "BPFO", "descripcion"] =
        some (JVal.str "Pista Externa (Outer Race)") ∧
      ("Pista Externa (Outer Race)" : String) ≠ "Outer Race" := by
  refine ⟨?_, by decide⟩
  rw [calcular_eq e30302 (by norm_num [Pd, e30302]) (by norm_num [e30302])
    (by norm_num [e30302])]
  simp [getPath, resultadosJVal, JVal.get, List.lookup]

/-- C6, amended: for every input the frequency blocks carry the fixed labels
"Pista Externa (Outer Race)" for BPFO, "Pista Interna (Inner Race)" for BPFI,
"Jaula (Cage)" for FTF and "Elemento Rodante (Rolling Element)" for BSF —
Spanish labels with the claimed English names in parentheses. -/
theorem C6_labels (e : Entrada) (h1 : Pd e ≠ 0) (h2 : e.diametro_elemento ≠ 0)
    (h3 : e.rpm ≠ 0) :
    getPath (calcular_frecuencias_falla e) ["frecuencias", "BPFO", "descripcion"] =
        some (JVal.str "Pista Externa (Outer Race)") ∧
    getPath (calcular_frecuencias_falla e) ["frecuencias", "BPFI", "descripcion"] =
        some (JVal.str "Pista Interna (Inner Race)") ∧
    getPath (calcular_frecuencias_falla e) ["frecuencias", "FTF", "descripcion"] =
        some (JVal.str "Jaula (Cage)") ∧
    getPath (calcular_frecuencias_falla e) ["frecuencias", "BSF", "descripcion"] =
        some (JVal.str "Elemento Rodante (Rolling Element)") := by
  rw [calcular_eq e h1 h2 h3]
  refine ⟨?_, ?_, ?_, ?_⟩ <;>
    simp [getPath, resultadosJVal, JVal.get, List.lookup]

/-- Witness for C6: the labels at the worked example. -/
theorem C6_labels_witness :
    (Pd e30302 ≠ 0 ∧ e30302.diametro_elemento ≠ 0 ∧ e30302.rpm ≠ 0) ∧
      (getPath (calcular_frecuencias_falla e30302) ["frecuencias", "BPFO", "descripcion"] =
          some (JVal.str "Pista Externa (Outer Race)") ∧
        getPath (calcular_frecuencias_falla e30302) ["frecuencias", "BPFI", "descripcion"] =
          some (JVal.str "Pista Interna (Inner Race)") ∧
        getPath (calcular_frecuencias_falla e30302) ["frecuencias", "FTF", "descripcion"] =
          some (JVal.str "Jaula (Cage)") ∧
        getPath (calcular_frecuencias_falla e30302) ["frecuencias", "BSF", "descripcion"] =
          some (JVal.str "Elemento Rodante (Rolling Element)")) :=
  ⟨⟨by norm_num [Pd, e30302], by norm_num [e30302], by norm_num [e30302]⟩,
    C6_labels e30302 (by norm_num [Pd, e30302]) (by norm_num [e30302])
      (by norm_num [e30302])⟩

/-- C8: for every input on which the function returns, the stored 2x harmonic
of each kind is the rounding of exactly twice the unrounded base frequency,
and the 3x harmonic the rounding of exactly three times it. -/
theorem C8_harmonics (e : Entrada) (h1 : Pd e ≠ 0) (h2 : e.diametro_elemento ≠ 0)
    (h3 : e.rpm ≠ 0) :
    getPath (calcular_frecuencias_falla e) ["frecuencias", "BPFO", "armonicas", "2x"] =
        some (JVal.num (pyround2 (2 * BPFO e))) ∧
    getPath (calcular_frecuencias_falla e) ["frecuencias", "BPFO", "armonicas", "3x"] =
        some (JVal.num (pyround2 (3 * BPFO e))) ∧
    getPath (calcular_frecuencias_falla e) ["frecuencias", "BPFI", "armonicas", "2x"] =
        some (JVal.num (pyround2 (2 * BPFI e))) ∧
    getPath (calcular_frecuencias_falla e) ["frecuencias", "BPFI", "armonicas", "3x"] =
        some (JVal.num (pyround2 (3 * BPFI e))) ∧
    getPath (calcular_frecuencias_falla e) ["frecuencias", "FTF", "armonicas", "2x"] =
        some (JVal.num (pyround2 (2 * FTF e))) ∧
    getPath (calcular_frecuencias_falla e) ["frecuencias", "FTF", "armonicas", "3x"] =
        some (JVal.num (pyround2 (3 * FTF e))) ∧
    getPath (calcular_frecuencias_falla e) ["frecuencias", "BSF", "armonicas", "2x"] =
        some (JVal.num (pyround2 (2 * BSF e))) ∧
    getPath (calcular_frecuencias_falla e) ["frecuencias", "BSF", "armonicas", "3x"] =
        some (JVal.num (pyround2 (3 * BSF e))) := by
  rw [calcular_eq e h1 h2 h3]
  refine ⟨?_, ?_, ?_, ?_, ?_, ?_, ?_, ?_⟩ <;>
    simp [getPath, resultadosJVal, JVal.get, List.lookup, mul_comm]

/-- Witness for C8: the harmonic relations at the worked example. -/
theorem C8_harmonics_witness :
    (Pd e30302 ≠ 0 ∧ e30302.diametro_elemento ≠ 0 ∧ e30302.rpm ≠ 0) ∧
      (getPath (calcular_frecuencias_falla e30302) ["frecuencias", "BPFO", "armonicas", "2x"] =
          some (JVal.num (pyround2 (2 * BPFO e30302))) ∧
        getPath (calcular_frecuencias_falla e30302) ["frecuencias", "BPFO", "armonicas", "3x"] =
          some (JVal.num (pyround2 (3 * BPFO e30302))) ∧
        getPath (calcular_frecuencias_falla e30302) ["frecuencias", "BPFI", "armonicas", "2x"] =
          some (JVal.num (pyround2 (2 * BPFI e30302))) ∧
        getPath (calcular_frecuencias_falla e30302) ["frecuencias", "BPFI", "armonicas", "3x"] =
          some (JVal.num (pyround2 (3 * BPFI e30302))) ∧
        getPath (calcular_frecuencias_falla e30302) ["frecuencias", "FTF", "armonicas", "2x"] =
          some (JVal.num (pyround2 (2 * FTF e30302))) ∧
        getPath (calcular_frecuencias_falla e30302) ["frecuencias", "FTF", "armonicas", "3x"] =
          some (JVal.num (pyround2 (3 * FTF e30302))) ∧
        getPath (calcular_frecuencias_falla e30302) ["frecuencias", "BSF", "armonicas", "2x"] =
          some (JVal.num (pyround2 (2 * BSF e30302))) ∧
        getPath (calcular_frecuencias_falla e30302) ["frecuencias", "BSF", "armonicas", "3x"] =
          some (JVal.num (pyround2 (3 * BSF e30302)))) :=
  ⟨⟨by norm_num [Pd, e30302], by norm_num [e30302], by norm_num [e30302]⟩,
    C8_harmonics e30302 (by norm_num [Pd, e30302]) (by norm_num [e30302])
      (by norm_num [e30302])⟩

end Rodamientos
